import Mathlib

/-
  Verification of the Impact Analysis & Recommendation Engine frontend
  (sprint_impact_service): a shallow embedding of the relevant code paths
  from ImpactAnalyzer.jsx, ImpactDashboard.jsx, Dashboard.jsx, api.js and
  the legacy api client, together with spec-modelled definitions for the
  backend store and chart generator that are not part of the snapshot.
-/

namespace SprintImpact

/-- One metric entry of an analysis display object, as consumed by the
frontend: value, status tier, label and explanation text
(ImpactAnalyzer.jsx / ImpactDashboard.jsx). -/
structure MetricData where
  value : String
  status : String
  label : String
  sub_text : String
deriving DecidableEq, Repr

/-- The four metric keys of a display object. -/
inductive MetricKey
  | effort
  | schedule
  | productivity
  | quality
deriving DecidableEq, Repr

/-- An analysis display object: each of the four metric keys may be present
or absent (a scorer sub-computation may fail independently). -/
structure Display where
  effort : Option MetricData
  schedule : Option MetricData
  productivity : Option MetricData
  quality : Option MetricData
deriving DecidableEq, Repr

/-- Key-based lookup into a display object (display[key] in the JSX). -/
def Display.get (d : Display) : MetricKey → Option MetricData
  | .effort => d.effort
  | .schedule => d.schedule
  | .productivity => d.productivity
  | .quality => d.quality

/-- CARD_KEYS from ImpactDashboard.jsx: the fixed iteration order of the
four metric keys. -/
def CARD_KEYS : List MetricKey := [.effort, .schedule, .productivity, .quality]

/-- The data actually handed to a metric card for rendering. -/
structure RenderedMetric where
  metricKey : MetricKey
  label : String
  value : String
  status : String
  sub_text : String
deriving DecidableEq, Repr

/-- The fallback card ImpactDashboard.jsx builds when a metric key is
missing from the display object (the none branch of the CARD_KEYS.map). -/
def unavailableCard (k : MetricKey) : RenderedMetric :=
  { metricKey := k
    label := "Data unavailable"
    value := "—"
    status := "warning"
    sub_text := "This metric was not returned by the ML model." }

/-- ImpactDashboard.jsx: the metrics array built by mapping CARD_KEYS over
the display object; a present key copies the ML fields, an absent key
yields the fallback card. -/
def buildMetrics (d : Display) : List RenderedMetric :=
  CARD_KEYS.map fun key =>
    match d.get key with
    | none => unavailableCard key
    | some m =>
      { metricKey := key, label := m.label, value := m.value
        status := m.status, sub_text := m.sub_text }

/-- ImpactAnalyzer.jsx result cards: the key list is mapped and a missing
key returns null, i.e. the card is skipped entirely. -/
def analyzerCards (d : Display) : List RenderedMetric :=
  CARD_KEYS.filterMap fun key =>
    (d.get key).map fun m =>
      { metricKey := key, label := m.label, value := m.value
        status := m.status, sub_text := m.sub_text }

/-- OverallRiskBanner from ImpactDashboard.jsx: counts critical and warning
statuses over the built metrics array and picks a banner level. -/
def riskLevel (metrics : List RenderedMetric) : String :=
  let critCount := (metrics.filter fun m => m.status == "critical").length
  let warnCount := (metrics.filter fun m => m.status == "warning").length
  if 2 ≤ critCount then "CRITICAL RISK"
  else if critCount = 1 ∨ 2 ≤ warnCount then "ELEVATED RISK"
  else "LOW RISK"

/-- The action kinds of ACTION_META in ImpactAnalyzer.jsx. -/
inductive ActionKind
  | ADD
  | ACCEPT
  | SWAP
  | DEFER
  | SPLIT
deriving DecidableEq, Repr

/-- The two feedback classifications recorded in the analysis log. -/
inductive TakenAction
  | FOLLOWED_RECOMMENDATION
  | IGNORED_RECOMMENDATION
deriving DecidableEq, Repr

/-- handleAction in ImpactAnalyzer.jsx classifies the executed action:
FOLLOWED_RECOMMENDATION exactly when it equals the recommendation type,
IGNORED_RECOMMENDATION otherwise. -/
def computeTakenAction (executed recommended : ActionKind) : TakenAction :=
  if executed = recommended then .FOLLOWED_RECOMMENDATION
  else .IGNORED_RECOMMENDATION

/-- The body recordImpactFeedback sends to the log store. -/
structure FeedbackPayload where
  accepted : Bool
  taken_action : TakenAction
deriving DecidableEq, Repr

/-- The feedback payload built by handleAction: accepted is the literal
true, taken_action is the computed classification. -/
def feedbackSent (executed recommended : ActionKind) : FeedbackPayload :=
  { accepted := true, taken_action := computeTakenAction executed recommended }

/-- A persisted analysis log record (store-side fields the claims need). -/
structure AnalysisLog where
  log_id : Nat
  date : Nat
  accepted : Option Bool
  taken_action : Option TakenAction
deriving DecidableEq, Repr

/-- Modelled from the spec: AnalysisLogStore.patch of the backend
(impact_routes.py, not in the snapshot). Per spec section 4.4 the store
"only persists what it is told; it does not recompute this
classification": the patch writes the given payload fields verbatim. -/
def patchLog (log : AnalysisLog) (p : FeedbackPayload) : AnalysisLog :=
  { log with accepted := some p.accepted, taken_action := some p.taken_action }

/-- logFeedback in ImpactAnalyzer.jsx: returns immediately when logId is
null, and wraps the patch call in try/catch with an empty handler, so a
patch failure leaves the store unchanged and no error escapes. -/
def logFeedbackStep (logId : Option Nat) (p : FeedbackPayload)
    (patchFails : Bool) (logs : List AnalysisLog) : List AnalysisLog :=
  match logId with
  | none => logs
  | some i =>
    if patchFails then logs
    else logs.map fun l => if l.log_id = i then patchLog l p else l

/-- A backlog item as created/updated by executeAction in
ImpactAnalyzer.jsx (sprint_id none means unassigned backlog). -/
structure BacklogItem where
  id : Nat
  title : String
  description : String
  story_points : Nat
  priority : String
  type : String
  space_id : String
  sprint_id : Option String
  status : String
deriving DecidableEq, Repr

/-- The CRUD store of backlog items, as observed through the api client. -/
abbrev BacklogStore := List BacklogItem

/-- Fault injection for the two external calls executeAction can make. -/
structure Faults where
  updateFails : Bool
  createFails : Bool
deriving DecidableEq, Repr

/-- api.updateBacklogItem restricted to the sprint_id field: on success the
store entry with the given id is reassigned; on failure nothing mutates. -/
def apiUpdateBacklogItem (st : BacklogStore) (fails : Bool) (itemId : Nat)
    (newSprint : Option String) : Except String BacklogStore :=
  if fails then .error "update failed"
  else .ok (st.map fun i => if i.id = itemId then { i with sprint_id := newSprint } else i)

/-- api.createBacklogItem: on success the item is appended to the store; on
failure nothing mutates. -/
def apiCreateBacklogItem (st : BacklogStore) (fails : Bool)
    (item : BacklogItem) : Except String BacklogStore :=
  if fails then .error "create failed" else .ok (st ++ [item])

/-- The candidate form fields of ImpactAnalyzer.jsx. -/
structure FormData where
  title : String
  description : String
  story_points : Nat
  priority : String
  type : String
deriving DecidableEq, Repr

/-- The base object executeAction builds from the form data: space_id is
always set and status is the literal To Do; the sprint reference is the
per-branch argument. -/
def baseItem (fd : FormData) (spaceId : String) (newId : Nat)
    (sprint : Option String) : BacklogItem :=
  { id := newId, title := fd.title, description := fd.description
    story_points := fd.story_points, priority := fd.priority
    type := fd.type, space_id := spaceId, sprint_id := sprint
    status := "To Do" }

/-- The result object executeAction resolves with on success. -/
structure ActionResult where
  ok : Bool
  requiresManual : Bool
  message : String
deriving DecidableEq, Repr

/-- executeAction from ImpactAnalyzer.jsx, with the store threaded
explicitly and the two api calls fallible. A JS exception thrown by the
second call of the SWAP branch propagates after the first call already
mutated the store, which the error case of that branch reflects. -/
def executeAction (action : ActionKind) (target : Option BacklogItem)
    (sprintId spaceId : String) (fd : FormData) (newId : Nat)
    (faults : Faults) (st : BacklogStore) :
    Except String ActionResult × BacklogStore :=
  match action with
  | .ADD | .ACCEPT =>
    match apiCreateBacklogItem st faults.createFails (baseItem fd spaceId newId (some sprintId)) with
    | .error e => (.error e, st)
    | .ok st1 =>
      (.ok { ok := true, requiresManual := false
             message := "\"" ++ fd.title ++ "\" added to sprint." }, st1)
  | .SWAP =>
    match target with
    | none => (.error "No swap target in recommendation.", st)
    | some t =>
      match apiUpdateBacklogItem st faults.updateFails t.id none with
      | .error e => (.error e, st)
      | .ok st1 =>
        match apiCreateBacklogItem st1 faults.createFails (baseItem fd spaceId newId (some sprintId)) with
        | .error e => (.error e, st1)
        | .ok st2 =>
          (.ok { ok := true, requiresManual := false
                 message := "Swapped: \"" ++ t.title ++ "\" to backlog. \"" ++ fd.title ++ "\" to sprint." }, st2)
  | .DEFER =>
    match apiCreateBacklogItem st faults.createFails (baseItem fd spaceId newId none) with
    | .error e => (.error e, st)
    | .ok st1 =>
      (.ok { ok := true, requiresManual := false
             message := "\"" ++ fd.title ++ "\" saved to backlog for next sprint." }, st1)
  | .SPLIT =>
    match apiCreateBacklogItem st faults.createFails (baseItem fd spaceId newId none) with
    | .error e => (.error e, st)
    | .ok st1 =>
      (.ok { ok := true, requiresManual := true
             message := "\"" ++ fd.title ++ "\" saved to backlog. Split it into sub-tickets before planning." }, st1)

/-- What the RecommendationCard UI shows after handleAction finishes. -/
structure UIOutcome where
  done : Bool
  message : String
  alerted : Bool
deriving DecidableEq, Repr

/-- handleAction from ImpactAnalyzer.jsx: execute the chosen action, then
send best-effort feedback, then mark the card done with the result
message; an executeAction failure alerts instead. -/
def handleAction (actionType recType : ActionKind) (target : Option BacklogItem)
    (sprintId spaceId : String) (fd : FormData) (newId : Nat)
    (logId : Option Nat) (faults : Faults) (patchFails : Bool)
    (st : BacklogStore) (logs : List AnalysisLog) :
    UIOutcome × BacklogStore × List AnalysisLog :=
  match executeAction actionType target sprintId spaceId fd newId faults st with
  | (.error e, st1) =>
    ({ done := false, message := "Action failed: " ++ e, alerted := true }, st1, logs)
  | (.ok r, st1) =>
    ({ done := true, message := r.message, alerted := false }, st1,
      logFeedbackStep logId (feedbackSent actionType recType) patchFails logs)

/-- Modelled from the spec: the backend history read of AnalysisLogStore
(impact_routes.py, not in the snapshot). The store is append-only in
insertion order; history re-reads current state, returns newest first and
is bounded by the limit (spec sections 4.4 and 8). -/
def getHistory (logs : List AnalysisLog) (lim : Nat) : List AnalysisLog :=
  logs.reverse.take lim

/-- The default history limit of api.getAnalysisHistory in api.js. -/
def DEFAULT_HISTORY_LIMIT : Nat := 50

/-- The endpoint api.getAnalysisHistory requests for an explicit limit. -/
def getAnalysisHistoryUrl (spaceId : String) (lim : Nat) : String :=
  "/impact/history/" ++ spaceId ++ "?limit=" ++ toString lim

/-- The endpoint requested when the caller gives no limit: the default
parameter value 50 is used. -/
def getAnalysisHistoryUrlDefault (spaceId : String) : String :=
  getAnalysisHistoryUrl spaceId DEFAULT_HISTORY_LIMIT

/-- Modelled from the spec: the ideal burndown series of
ChartDataGenerator (analytics_routes.py, not in the snapshot): a linear
interpolation from total_points at sprint start to 0 at sprint end, one
point per calendar day inclusive of both endpoints; numDays is the number
of days from start to end, so the series has numDays + 1 points. -/
def idealBurndown (totalPoints : ℚ) (numDays : Nat) : List ℚ :=
  (List.range (numDays + 1)).map fun i : Nat =>
    totalPoints * ((numDays : ℚ) - (i : ℚ)) / (numDays : ℚ)

/-- The days-remaining figure of Dashboard.jsx: Math.max(0,
Math.ceil((end_date − now) / 86400000)) over millisecond timestamps. -/
def daysRemaining (endMs nowMs : Int) : Int :=
  max 0 ⌈(((endMs - nowMs : Int)) : ℚ) / 86400000⌉

/-- The HTTP methods the two api clients use. -/
inductive HttpMethod
  | GET
  | POST
  | PUT
  | DELETE
  | PATCH
deriving DecidableEq, Repr

/-- An observable request: method plus endpoint (both clients prepend the
same API_BASE_URL, so the endpoint string is the distinguishing part). -/
structure ApiRequest where
  method : HttpMethod
  endpoint : String
deriving DecidableEq, Repr

namespace LegacyClient

/-- Legacy api client: sprint context endpoint. -/
def getSprintContext (sprintId : String) : ApiRequest :=
  { method := .GET, endpoint := "/impact/sprint/" ++ sprintId ++ "/context" }

/-- Legacy api client: burndown endpoint. -/
def getSprintBurndown (sprintId : String) : ApiRequest :=
  { method := .GET, endpoint := "/sprints/" ++ sprintId ++ "/burndown" }

/-- Legacy api client: burnup endpoint. -/
def getSprintBurnup (sprintId : String) : ApiRequest :=
  { method := .GET, endpoint := "/sprints/" ++ sprintId ++ "/burnup" }

/-- Legacy api client: velocity endpoint. -/
def getVelocityChart (spaceId : String) : ApiRequest :=
  { method := .GET, endpoint := "/spaces/" ++ spaceId ++ "/velocity" }

/-- Legacy api client: story-point prediction endpoint. -/
def predictStoryPoints : ApiRequest :=
  { method := .POST, endpoint := "/ai/predict-story-points" }

end LegacyClient

namespace FrontendClient

/-- Frontend api.js: sprint context endpoint. -/
def getSprintContext (sprintId : String) : ApiRequest :=
  { method := .GET, endpoint := "/impact/sprints/" ++ sprintId ++ "/context" }

/-- Frontend api.js: burndown endpoint (analytics prefix). -/
def getSprintBurndown (sprintId : String) : ApiRequest :=
  { method := .GET, endpoint := "/analytics/sprints/" ++ sprintId ++ "/burndown" }

/-- Frontend api.js: burnup endpoint (analytics prefix). -/
def getSprintBurnup (sprintId : String) : ApiRequest :=
  { method := .GET, endpoint := "/analytics/sprints/" ++ sprintId ++ "/burnup" }

/-- Frontend api.js: velocity endpoint (analytics prefix). -/
def getVelocityChart (spaceId : String) : ApiRequest :=
  { method := .GET, endpoint := "/analytics/spaces/" ++ spaceId ++ "/velocity" }

/-- Frontend api.js: story-point prediction endpoint. -/
def predictStoryPoints : ApiRequest :=
  { method := .POST, endpoint := "/ai/predict" }

end FrontendClient

/-- A concrete populated metric used by witnesses and counterexamples. -/
def mSafe : MetricData :=
  { value := "3 SP", status := "safe", label := "Low Effort"
    sub_text := "Within space average." }

/-- A display object whose effort key is absent. -/
def dMissingEffort : Display :=
  { effort := none, schedule := some mSafe
    productivity := some mSafe, quality := some mSafe }

/-- A display object with all four keys absent. -/
def dAllMissing : Display :=
  { effort := none, schedule := none, productivity := none, quality := none }

/-- Concrete candidate form data. -/
def fdEx : FormData :=
  { title := "Payment gateway", description := "Add gateway"
    story_points := 5, priority := "High", type := "Story" }

/-- A concrete sprint item used as a swap target. -/
def targetEx : BacklogItem :=
  { id := 7, title := "Old ticket", description := ""
    story_points := 5, priority := "Low", type := "Task"
    space_id := "sp1", sprint_id := some "s1", status := "To Do" }

/-- A concrete store holding just the swap target. -/
def stEx : BacklogStore := [targetEx]

/-- A concrete pending analysis log. -/
def logEx : AnalysisLog :=
  { log_id := 1, date := 100, accepted := none, taken_action := none }

/-- A later concrete pending analysis log. -/
def logEx2 : AnalysisLog :=
  { log_id := 2, date := 200, accepted := none, taken_action := none }

/-- C1: counterexample. With the effort key absent, ImpactDashboard still
builds a card whose status field is the fabricated tier "warning" and
whose value is the placeholder "—"; with all four keys absent the overall
risk banner counts those fabricated tiers and reports ELEVATED RISK; and
ImpactAnalyzer renders only 3 cards for the 4 keys, surfacing no
unavailable state for the missing one. -/
theorem c1_missing_metric_counterexample :
    (buildMetrics dMissingEffort).head? = some (unavailableCard .effort) ∧
    (unavailableCard MetricKey.effort).status = "warning" ∧
    (unavailableCard MetricKey.effort).value = "—" ∧
    riskLevel (buildMetrics dAllMissing) = "ELEVATED RISK" ∧
    (analyzerCards dMissingEffort).length = 3 := by
  refine ⟨rfl, rfl, rfl, ?_, rfl⟩
  rfl

/-- C1 (amended): for every display object with a missing metric key,
ImpactDashboard renders the fallback card for that key — honest label
"Data unavailable" but placeholder value "—" and substituted status tier
"warning" — while ImpactAnalyzer renders no card at all for that key. -/
theorem c1_missing_metric_amended :
    ∀ (d : Display) (k : MetricKey), d.get k = none →
      unavailableCard k ∈ buildMetrics d ∧
      (unavailableCard k).label = "Data unavailable" ∧
      (unavailableCard k).value = "—" ∧
      (unavailableCard k).status = "warning" ∧
      ∀ m ∈ analyzerCards d, m.metricKey ≠ k := by
  intro d k h
  refine ⟨?_, rfl, rfl, rfl, ?_⟩
  · unfold buildMetrics
    refine List.mem_map.mpr ⟨k, ?_, ?_⟩
    · cases k <;> simp [CARD_KEYS]
    · rw [h]
  · intro m hm
    unfold analyzerCards at hm
    rw [List.mem_filterMap] at hm
    obtain ⟨a, _, hga⟩ := hm
    rw [Option.map_eq_some'] at hga
    obtain ⟨md, hda, hmd⟩ := hga
    intro hk
    have hma : m.metricKey = a := by rw [← hmd]
    rw [hma] at hk
    rw [hk, h] at hda
    exact Option.noConfusion hda

/-- C1 (amended) witness at the concrete display missing its effort key. -/
theorem c1_missing_metric_witness :
    unavailableCard .effort ∈ buildMetrics dMissingEffort ∧
    (unavailableCard MetricKey.effort).label = "Data unavailable" ∧
    (unavailableCard MetricKey.effort).value = "—" ∧
    (unavailableCard MetricKey.effort).status = "warning" ∧
    ∀ m ∈ analyzerCards dMissingEffort, m.metricKey ≠ .effort :=
  c1_missing_metric_amended dMissingEffort .effort rfl

/-- C2: the caller computes taken_action as FOLLOWED_RECOMMENDATION exactly
when the executed action equals the recommendation type and
IGNORED_RECOMMENDATION otherwise, and the store patch persists the given
classification (and accepted flag) verbatim without recomputing it. -/
theorem c2_taken_action_classification :
    ∀ (executed recommended : ActionKind) (log : AnalysisLog) (p : FeedbackPayload),
      (computeTakenAction executed recommended = .FOLLOWED_RECOMMENDATION
        ↔ executed = recommended) ∧
      (computeTakenAction executed recommended = .IGNORED_RECOMMENDATION
        ↔ ¬ executed = recommended) ∧
      (patchLog log p).taken_action = some p.taken_action ∧
      (patchLog log p).accepted = some p.accepted := by
  intro e r log p
  refine ⟨?_, ?_, rfl, rfl⟩ <;> unfold computeTakenAction <;> split <;> simp_all

/-- C9: the feedback payload handleAction sends always carries
accepted = true, whether the recommendation was followed or ignored. -/
theorem c9_accepted_always_true :
    ∀ (executed recommended : ActionKind),
      (feedbackSent executed recommended).accepted = true := by
  intro e r
  rfl

/-- C4: with no faults, DEFER stores the candidate with a null sprint
reference and no manual-decomposition flag, SPLIT stores it identically
but flags the result as requiring manual decomposition, and ADD stores it
with the selected sprint id. -/
theorem c4_action_storage :
    ∀ (target : Option BacklogItem) (sprintId spaceId : String) (fd : FormData)
      (newId : Nat) (st : BacklogStore),
      (executeAction .DEFER target sprintId spaceId fd newId ⟨false, false⟩ st).2
        = st ++ [baseItem fd spaceId newId none] ∧
      (executeAction .SPLIT target sprintId spaceId fd newId ⟨false, false⟩ st).2
        = st ++ [baseItem fd spaceId newId none] ∧
      (executeAction .ADD target sprintId spaceId fd newId ⟨false, false⟩ st).2
        = st ++ [baseItem fd spaceId newId (some sprintId)] ∧
      (∃ r, (executeAction .DEFER target sprintId spaceId fd newId ⟨false, false⟩ st).1 = .ok r
        ∧ r.requiresManual = false) ∧
      (∃ r, (executeAction .SPLIT target sprintId spaceId fd newId ⟨false, false⟩ st).1 = .ok r
        ∧ r.requiresManual = true) ∧
      (baseItem fd spaceId newId none).sprint_id = none ∧
      (baseItem fd spaceId newId (some sprintId)).sprint_id = some sprintId := by
  intro target sprintId spaceId fd newId st
  exact ⟨rfl, rfl, rfl, ⟨_, rfl, rfl⟩, ⟨_, rfl, rfl⟩, rfl, rfl⟩

/-- C3: counterexample. Executing SWAP when the target-unassign call
succeeds but the candidate-create call fails yields an error while the
store has already changed: the target is removed from the sprint and the
candidate was never created, so the operation neither completed fully nor
left sprint membership and the backlog unchanged. -/
theorem c3_swap_not_atomic_counterexample :
    executeAction .SWAP (some targetEx) "s1" "sp1" fdEx 99 ⟨false, true⟩ stEx =
      (.error "create failed", [{ targetEx with sprint_id := none }]) ∧
    targetEx.sprint_id = some "s1" ∧
    ({ targetEx with sprint_id := none } : BacklogItem) ≠ targetEx := by
  refine ⟨rfl, rfl, ?_⟩
  decide

/-- C3 (amended): ADD, ACCEPT, DEFER and SPLIT each make a single external
call and leave the store unchanged when it fails, but SWAP spans two
blocking external calls with no coordinated rollback — when the create
call fails after the unassign succeeded, the final store keeps the target
unassigned and contains no created candidate. -/
theorem c3_swap_rollback_amended :
    ∀ (st : BacklogStore) (t : BacklogItem) (sprintId spaceId : String)
      (fd : FormData) (newId : Nat),
      (executeAction .ADD (some t) sprintId spaceId fd newId ⟨false, true⟩ st).2 = st ∧
      (executeAction .ACCEPT (some t) sprintId spaceId fd newId ⟨false, true⟩ st).2 = st ∧
      (executeAction .DEFER (some t) sprintId spaceId fd newId ⟨false, true⟩ st).2 = st ∧
      (executeAction .SPLIT (some t) sprintId spaceId fd newId ⟨false, true⟩ st).2 = st ∧
      executeAction .SWAP (some t) sprintId spaceId fd newId ⟨false, true⟩ st =
        (.error "create failed",
          st.map fun i => if i.id = t.id then { i with sprint_id := none } else i) := by
  intro st t sprintId spaceId fd newId
  exact ⟨rfl, rfl, rfl, rfl, rfl⟩

/-- C5: when the executed action succeeded, a failure of the subsequent
feedback patch neither undoes the action (the store stays at the
post-action state) nor blocks it (the card still reaches the done state
with the success message); with the patch failing, even the log list is
simply left unchanged. -/
theorem c5_feedback_failure_harmless :
    ∀ (actionType recType : ActionKind) (target : Option BacklogItem)
      (sprintId spaceId : String) (fd : FormData) (newId : Nat)
      (logId : Option Nat) (faults : Faults) (patchFails : Bool)
      (st : BacklogStore) (logs : List AnalysisLog)
      (r : ActionResult) (st1 : BacklogStore),
      executeAction actionType target sprintId spaceId fd newId faults st = (.ok r, st1) →
      handleAction actionType recType target sprintId spaceId fd newId logId faults
          patchFails st logs =
        ({ done := true, message := r.message, alerted := false }, st1,
          logFeedbackStep logId (feedbackSent actionType recType) patchFails logs) ∧
      (patchFails = true →
        handleAction actionType recType target sprintId spaceId fd newId logId faults
            patchFails st logs =
          ({ done := true, message := r.message, alerted := false }, st1, logs)) := by
  intro a rt tg sid spid fd nid lid f pf st logs r st1 h
  constructor
  · unfold handleAction
    rw [h]
  · intro hp
    unfold handleAction
    rw [h]
    subst hp
    unfold logFeedbackStep
    cases lid <;> rfl

/-- C5 witness: a concrete successful DEFER whose feedback patch fails
still reports success, keeps the created item, and leaves the logs as
they were. -/
theorem c5_feedback_failure_witness :
    handleAction .DEFER .DEFER none "s1" "sp1" fdEx 99 (some 1) ⟨false, false⟩ true
        stEx [logEx] =
      ({ done := true
         message := "\"Payment gateway\" saved to backlog for next sprint."
         alerted := false }, stEx ++ [baseItem fdEx "sp1" 99 none], [logEx]) :=
  (c5_feedback_failure_harmless .DEFER .DEFER none "s1" "sp1" fdEx 99 (some 1)
    ⟨false, false⟩ true stEx [logEx]
    { ok := true, requiresManual := false
      message := "\"Payment gateway\" saved to backlog for next sprint." }
    (stEx ++ [baseItem fdEx "sp1" 99 none]) rfl).2 rfl

/-- C6: history returns at most limit records; on an append-only store with
strictly increasing dates it is in strictly descending date order; and the
client requests the endpoint with limit 50 when none is given. -/
theorem c6_history_newest_first_bounded :
    ∀ (logs : List AnalysisLog) (lim : Nat) (spaceId : String),
      (getHistory logs lim).length ≤ lim ∧
      (logs.Pairwise (fun a b => a.date < b.date) →
        (getHistory logs lim).Pairwise (fun a b => b.date < a.date)) ∧
      getAnalysisHistoryUrlDefault spaceId = "/impact/history/" ++ spaceId ++ "?limit=50" := by
  intro logs lim spaceId
  refine ⟨?_, ?_, ?_⟩
  · unfold getHistory
    rw [List.length_take]
    exact min_le_left _ _
  · intro h
    unfold getHistory
    exact (List.pairwise_reverse.mpr h).sublist (List.take_sublist _ _)
  · unfold getAnalysisHistoryUrlDefault getAnalysisHistoryUrl DEFAULT_HISTORY_LIMIT
    rw [String.append_assoc]
    congr 1

/-- C6 witness at a concrete two-record store with increasing dates. -/
theorem c6_history_witness :
    (getHistory [logEx, logEx2] 50).length ≤ 50 ∧
    (getHistory [logEx, logEx2] 50).Pairwise (fun a b => b.date < a.date) ∧
    getAnalysisHistoryUrlDefault "space9" = "/impact/history/" ++ "space9" ++ "?limit=50" := by
  obtain ⟨h1, h2, h3⟩ := c6_history_newest_first_bounded [logEx, logEx2] 50 "space9"
  refine ⟨h1, h2 ?_, h3⟩
  refine List.Pairwise.cons ?_ (List.pairwise_singleton _ _)
  intro b hb
  rw [List.mem_singleton] at hb
  subst hb
  decide

/-- C7: the ideal burndown series starts at total_points, ends at 0, and is
non-increasing, for any sprint lasting at least one day and any
non-negative committed total. -/
theorem c7_ideal_burndown_shape :
    ∀ (totalPoints : ℚ) (numDays : Nat), 1 ≤ numDays → 0 ≤ totalPoints →
      (idealBurndown totalPoints numDays).head? = some totalPoints ∧
      (idealBurndown totalPoints numDays).getLast? = some 0 ∧
      (idealBurndown totalPoints numDays).Pairwise (fun a b => b ≤ a) := by
  intro t n hn ht
  have hnq : ((n : ℚ)) ≠ 0 := Nat.cast_ne_zero.mpr (by omega)
  have hnpos : (0 : ℚ) < (n : ℚ) := by exact_mod_cast (by omega : 0 < n)
  refine ⟨?_, ?_, ?_⟩
  · unfold idealBurndown
    rw [List.range_succ_eq_map, List.map_cons, List.head?_cons]
    congr 1
    rw [Nat.cast_zero, sub_zero, mul_div_assoc, div_self hnq, mul_one]
  · unfold idealBurndown
    rw [List.range_succ, List.map_append, List.map_cons, List.map_nil,
      List.getLast?_concat]
    congr 1
    rw [sub_self, mul_zero, zero_div]
  · unfold idealBurndown
    rw [List.pairwise_map]
    refine (List.pairwise_lt_range (n + 1)).imp ?_
    intro i j hij
    have hij' : (i : ℚ) ≤ (j : ℚ) := by exact_mod_cast hij.le
    have h1 : (n : ℚ) - (j : ℚ) ≤ (n : ℚ) - (i : ℚ) := by linarith
    have h2 : t * ((n : ℚ) - (j : ℚ)) ≤ t * ((n : ℚ) - (i : ℚ)) :=
      mul_le_mul_of_nonneg_left h1 ht
    exact (div_le_div_iff_of_pos_right hnpos).mpr h2

/-- C7 witness at a 5-day sprint with 10 committed points. -/
theorem c7_ideal_burndown_witness :
    (idealBurndown 10 5).head? = some 10 ∧
    (idealBurndown 10 5).getLast? = some 0 ∧
    (idealBurndown 10 5).Pairwise (fun a b => b ≤ a) :=
  c7_ideal_burndown_shape 10 5 (by norm_num) (by norm_num)

/-- C8: the displayed days-remaining value equals
max(0, ceil((end − now)/1 day)) over millisecond timestamps, is never
negative, is 0 for overdue or finished sprints, and for future end dates
is the calendar-day ceiling of the remaining time. -/
theorem c8_days_remaining_spec :
    ∀ (endMs nowMs : Int),
      daysRemaining endMs nowMs = max 0 ⌈(((endMs - nowMs : Int)) : ℚ) / 86400000⌉ ∧
      0 ≤ daysRemaining endMs nowMs ∧
      (endMs ≤ nowMs → daysRemaining endMs nowMs = 0) ∧
      (nowMs < endMs →
        ((endMs : ℚ) - (nowMs : ℚ)) ≤ (daysRemaining endMs nowMs : ℚ) * 86400000 ∧
        ((daysRemaining endMs nowMs : ℚ) - 1) * 86400000 < (endMs : ℚ) - (nowMs : ℚ)) := by
  intro e n
  refine ⟨rfl, le_max_left _ _, ?_, ?_⟩
  · intro h
    unfold daysRemaining
    have hx : ((e - n : Int) : ℚ) / 86400000 ≤ 0 := by
      apply div_nonpos_of_nonpos_of_nonneg
      · exact_mod_cast sub_nonpos.mpr h
      · norm_num
    have hc : ⌈((e - n : Int) : ℚ) / 86400000⌉ ≤ 0 := by
      rw [Int.ceil_le]
      exact_mod_cast hx
    exact max_eq_left hc
  · intro h
    have hxpos : 0 < ((e - n : Int) : ℚ) / 86400000 := by
      apply div_pos
      · exact_mod_cast sub_pos.mpr h
      · norm_num
    have hd : daysRemaining e n = ⌈((e - n : Int) : ℚ) / 86400000⌉ :=
      max_eq_right (Int.ceil_pos.mpr hxpos).le
    constructor
    · rw [hd]
      have h1 : ((e - n : Int) : ℚ) / 86400000
          ≤ ((⌈((e - n : Int) : ℚ) / 86400000⌉ : Int) : ℚ) := Int.le_ceil _
      rw [div_le_iff₀ (by norm_num : (0 : ℚ) < 86400000)] at h1
      push_cast at h1 ⊢
      linarith
    · rw [hd]
      have h2 : ((⌈((e - n : Int) : ℚ) / 86400000⌉ : Int) : ℚ) - 1
          < ((e - n : Int) : ℚ) / 86400000 := by
        have h3 := Int.ceil_lt_add_one (((e - n : Int) : ℚ) / 86400000)
        linarith
      rw [lt_div_iff₀ (by norm_num : (0 : ℚ) < 86400000)] at h2
      push_cast at h2 ⊢
      linarith

/-- C8 witness: an overdue sprint shows 0, and a sprint ending just over a
day from now shows a non-negative count bounding the remaining time. -/
theorem c8_days_remaining_witness :
    daysRemaining 5 10 = 0 ∧
    0 ≤ daysRemaining 86400001 0 ∧
    ((86400001 : ℚ) - (0 : ℚ)) ≤ (daysRemaining 86400001 0 : ℚ) * 86400000 :=
  ⟨(c8_days_remaining_spec 5 10).2.2.1 (by norm_num),
    (c8_days_remaining_spec 86400001 0).2.1,
    ((c8_days_remaining_spec 86400001 0).2.2.2 (by norm_num)).1⟩

/-- Strings of different lengths are different. -/
theorem string_ne_of_length_ne (a b : String) (h : a.length ≠ b.length) : a ≠ b :=
  fun he => h (congrArg String.length he)

/-- C10: counterexample. At the concrete id "abc" the two api clients issue
different requests for every one of the five operations defined in both. -/
theorem c10_clients_counterexample :
    LegacyClient.getSprintContext "abc" ≠ FrontendClient.getSprintContext "abc" ∧
    LegacyClient.getSprintBurndown "abc" ≠ FrontendClient.getSprintBurndown "abc" ∧
    LegacyClient.getSprintBurnup "abc" ≠ FrontendClient.getSprintBurnup "abc" ∧
    LegacyClient.getVelocityChart "abc" ≠ FrontendClient.getVelocityChart "abc" ∧
    LegacyClient.predictStoryPoints ≠ FrontendClient.predictStoryPoints := by
  refine ⟨?_, ?_, ?_, ?_, ?_⟩ <;> decide

/-- C10 (amended): for every id the two clients agree on the HTTP method of
each of the five operations but disagree on the endpoint path of every one
of them. -/
theorem c10_clients_amended :
    ∀ (id : String),
      ((LegacyClient.getSprintContext id).method
          = (FrontendClient.getSprintContext id).method ∧
        (LegacyClient.getSprintContext id).endpoint
          ≠ (FrontendClient.getSprintContext id).endpoint) ∧
      ((LegacyClient.getSprintBurndown id).method
          = (FrontendClient.getSprintBurndown id).method ∧
        (LegacyClient.getSprintBurndown id).endpoint
          ≠ (FrontendClient.getSprintBurndown id).endpoint) ∧
      ((LegacyClient.getSprintBurnup id).method
          = (FrontendClient.getSprintBurnup id).method ∧
        (LegacyClient.getSprintBurnup id).endpoint
          ≠ (FrontendClient.getSprintBurnup id).endpoint) ∧
      ((LegacyClient.getVelocityChart id).method
          = (FrontendClient.getVelocityChart id).method ∧
        (LegacyClient.getVelocityChart id).endpoint
          ≠ (FrontendClient.getVelocityChart id).endpoint) ∧
      (LegacyClient.predictStoryPoints.method = FrontendClient.predictStoryPoints.method ∧
        LegacyClient.predictStoryPoints.endpoint ≠ FrontendClient.predictStoryPoints.endpoint) := by
  intro id
  refine ⟨⟨rfl, ?_⟩, ⟨rfl, ?_⟩, ⟨rfl, ?_⟩, ⟨rfl, ?_⟩, ⟨rfl, by decide⟩⟩
  · apply string_ne_of_length_ne
    simp only [LegacyClient.getSprintContext, FrontendClient.getSprintContext,
      String.length_append,
      show ("/impact/sprint/" : String).length = 15 from rfl,
      show ("/impact/sprints/" : String).length = 16 from rfl]
    omega
  · apply string_ne_of_length_ne
    simp only [LegacyClient.getSprintBurndown, FrontendClient.getSprintBurndown,
      String.length_append,
      show ("/sprints/" : String).length = 9 from rfl,
      show ("/analytics/sprints/" : String).length = 19 from rfl]
    omega
  · apply string_ne_of_length_ne
    simp only [LegacyClient.getSprintBurnup, FrontendClient.getSprintBurnup,
      String.length_append,
      show ("/sprints/" : String).length = 9 from rfl,
      show ("/analytics/sprints/" : String).length = 19 from rfl]
    omega
  · apply string_ne_of_length_ne
    simp only [LegacyClient.getVelocityChart, FrontendClient.getVelocityChart,
      String.length_append,
      show ("/spaces/" : String).length = 8 from rfl,
      show ("/analytics/spaces/" : String).length = 18 from rfl]
    omega

end SprintImpact
